import Mathlib

/-!
Verification of the Assignment-Solver single-page application.

The repository is a React/TypeScript front end (`src/App.tsx`, latest
revision, plus one earlier revision of the same component).  Everything the
claims depend on is pure computation over the component's state: the
`FormData` record, the topic-list editing operations, the submission
validation / request-building pipeline, the response normalisation, the
reset operation and the download file-name computation.  We embed those
pieces as Lean definitions, modelling JavaScript strings as `String`,
JavaScript numbers that can be `NaN` as `JSNum`, and the absent/`undefined`
fields of a JSON response as `Option String` with JS truthiness
(`undefined` and `""` are falsy).
-/

/-- Characters matched by the JavaScript regex class `\s` (and stripped by
`String.prototype.trim`): ASCII whitespace, line terminators and the
Unicode space characters. -/
def isJsWhitespace (c : Char) : Bool :=
  c = ' ' || c = '\t' || c = '\n' || c = '\r' ||
  c = Char.ofNat 11 || c = Char.ofNat 12 ||
  c = Char.ofNat 0xa0 || c = Char.ofNat 0x1680 ||
  (Char.ofNat 0x2000 ≤ c && c ≤ Char.ofNat 0x200a) ||
  c = Char.ofNat 0x2028 || c = Char.ofNat 0x2029 ||
  c = Char.ofNat 0x202f || c = Char.ofNat 0x205f ||
  c = Char.ofNat 0x3000 || c = Char.ofNat 0xfeff

/-- JavaScript `String.prototype.trim`: drop leading and trailing
whitespace. -/
def jsTrim (s : String) : String :=
  (((s.data.dropWhile isJsWhitespace).reverse.dropWhile isJsWhitespace).reverse).asString

/-- JavaScript `s.replace(/\s+/g, "")`: remove every whitespace
character. -/
def removeWs (s : String) : String :=
  (s.data.filter (fun c => !isJsWhitespace c)).asString

/-- Helper for `replaceWsRuns`: the boolean records whether we are inside a
whitespace run that has already emitted its underscore. -/
def replaceWsRunsAux : List Char → Bool → List Char
  | [], _ => []
  | c :: cs, inRun =>
    if isJsWhitespace c then
      if inRun then replaceWsRunsAux cs true
      else '_' :: replaceWsRunsAux cs true
    else c :: replaceWsRunsAux cs false

/-- JavaScript `s.replace(/\s+/g, "_")`: each maximal run of whitespace
characters is replaced by a single underscore. -/
def replaceWsRuns (s : String) : String :=
  (replaceWsRunsAux s.data false).asString

/-- A JavaScript number as it occurs in this component: either an integer
or `NaN` (`parseInt` on a non-numeric string).  No fractional values arise
anywhere in the source. -/
inductive JSNum where
  | nan : JSNum
  | int : Int → JSNum
deriving DecidableEq, Repr

/-- JavaScript `<` on numbers: any comparison involving `NaN` is false. -/
def JSNum.lt : JSNum → JSNum → Bool
  | JSNum.int a, JSNum.int b => decide (a < b)
  | _, _ => false

/-- Accumulate a decimal digit prefix, stopping at the first non-digit
(JavaScript `parseInt` keeps the longest valid prefix). -/
def parseDecAux : Nat → List Char → Nat
  | acc, [] => acc
  | acc, c :: cs =>
    if '0' ≤ c ∧ c ≤ '9' then parseDecAux (acc * 10 + (c.toNat - '0'.toNat)) cs
    else acc

/-- Whether a character is a hexadecimal digit. -/
def isHexDigitJs (c : Char) : Bool :=
  ('0' ≤ c && c ≤ '9') || ('a' ≤ c && c ≤ 'f') || ('A' ≤ c && c ≤ 'F')

/-- Numeric value of a hexadecimal digit. -/
def hexVal (c : Char) : Nat :=
  if '0' ≤ c ∧ c ≤ '9' then c.toNat - '0'.toNat
  else if 'a' ≤ c ∧ c ≤ 'f' then c.toNat - 'a'.toNat + 10
  else if 'A' ≤ c ∧ c ≤ 'F' then c.toNat - 'A'.toNat + 10
  else 0

/-- Accumulate a hexadecimal digit prefix, stopping at the first
non-digit. -/
def parseHexAux : Nat → List Char → Nat
  | acc, [] => acc
  | acc, c :: cs =>
    if isHexDigitJs c then parseHexAux (acc * 16 + hexVal c) cs
    else acc

/-- JavaScript `parseInt(s)` with no radix argument: skip leading
whitespace, read an optional sign, detect a `0x`/`0X` prefix (radix 16),
then take the longest digit prefix; `NaN` when no digit follows. -/
def parseIntJS (s : String) : JSNum :=
  let cs0 := s.data.dropWhile isJsWhitespace
  let neg : Bool := match cs0 with
    | '-' :: _ => true
    | _ => false
  let cs1 : List Char := match cs0 with
    | '-' :: r => r
    | '+' :: r => r
    | _ => cs0
  let hex : Bool := match cs1 with
    | '0' :: 'x' :: _ => true
    | '0' :: 'X' :: _ => true
    | _ => false
  let digits : List Char := match cs1 with
    | '0' :: 'x' :: r => r
    | '0' :: 'X' :: r => r
    | _ => cs1
  let hasDigit : Bool := match digits with
    | c :: _ => if hex then isHexDigitJs c else ('0' ≤ c && c ≤ '9')
    | [] => false
  if hasDigit then
    let v : Nat := if hex then parseHexAux 0 digits else parseDecAux 0 digits
    JSNum.int (if neg then -(Int.ofNat v) else Int.ofNat v)
  else JSNum.nan

/-- The `FormData` record of `src/App.tsx` (latest revision).
`handwritingId` is a JavaScript number, hence `JSNum`. -/
structure FormData where
  name : String
  classRoll : String
  universityRoll : String
  subjectName : String
  subjectCode : String
  topics : List String
  handwritingId : JSNum
  geminiApiKey : String
  outputFilename : String
deriving DecidableEq, Repr

/-- The initial `useState` value of `FormData` in the latest revision:
everything empty, one empty topic, `handwritingId = 4`. -/
def initialFormData : FormData :=
  { name := ""
    classRoll := ""
    universityRoll := ""
    subjectName := ""
    subjectCode := ""
    topics := [""]
    handwritingId := JSNum.int 4
    geminiApiKey := ""
    outputFilename := "" }

/-- `handleInputChange`: update the field named by the input element; the
handwriting selector value goes through `parseInt` first. -/
def handleInputChange (fd : FormData) (field value : String) : FormData :=
  if field = "handwritingId" then { fd with handwritingId := parseIntJS value }
  else if field = "name" then { fd with name := value }
  else if field = "classRoll" then { fd with classRoll := value }
  else if field = "universityRoll" then { fd with universityRoll := value }
  else if field = "subjectName" then { fd with subjectName := value }
  else if field = "subjectCode" then { fd with subjectCode := value }
  else if field = "geminiApiKey" then { fd with geminiApiKey := value }
  else if field = "outputFilename" then { fd with outputFilename := value }
  else fd

/-- `handleTopicChange`: `topics.map((topic, i) => i === index ? value :
topic)`. -/
def handleTopicChange (fd : FormData) (index : Nat) (value : String) : FormData :=
  { fd with topics := (fd.topics.enum.map (fun p => if p.1 = index then value else p.2)) }

/-- `addTopic`: append one empty topic. -/
def addTopic (fd : FormData) : FormData :=
  { fd with topics := fd.topics ++ [""] }

/-- `removeTopic`: when more than one topic is present, drop the entry at
`index` via `topics.filter((_, i) => i !== index)`; otherwise do
nothing. -/
def removeTopic (fd : FormData) (index : Nat) : FormData :=
  if fd.topics.length > 1 then
    { fd with topics := ((fd.topics.enum.filter (fun p => p.1 != index)).map Prod.snd) }
  else fd

/-- The full component state relevant to the claims: the form record plus
the `isGenerating` / `generatedImageUrl` / `error` / `isPdfContent` /
`showApiKey` `useState` hooks. -/
structure AppState where
  formData : FormData
  isGenerating : Bool
  generatedImageUrl : Option String
  error : Option String
  isPdfContent : Bool
  showApiKey : Bool
deriving DecidableEq, Repr

/-- The state on fresh application start. -/
def initialState : AppState :=
  { formData := initialFormData
    isGenerating := false
    generatedImageUrl := none
    error := none
    isPdfContent := false
    showApiKey := false }

/-- The `FormData` literal written inside `resetForm` (note: it hard-codes
`handwritingId = 1` and `geminiApiKey = ""`). -/
def resetFormDefaults : FormData :=
  { name := ""
    classRoll := ""
    universityRoll := ""
    subjectName := ""
    subjectCode := ""
    topics := [""]
    handwritingId := JSNum.int 1
    geminiApiKey := ""
    outputFilename := "" }

/-- `resetForm`: replace the form record by `resetFormDefaults` and clear
`generatedImageUrl`, `error` and `isPdfContent`.  The `isGenerating` and
`showApiKey` hooks are not touched. -/
def resetForm (st : AppState) : AppState :=
  { st with
    formData := resetFormDefaults
    generatedImageUrl := none
    error := none
    isPdfContent := false }

/-- JS truthiness of a possibly-`undefined` string field: `undefined` and
`""` are falsy. -/
def truthy : Option String → Bool
  | some s => s ≠ ""
  | none => false

/-- The JSON request body built by `handleSubmit`. -/
structure RequestBody where
  name : String
  class_roll : String
  university_roll : String
  subject_name : String
  subject_code : String
  topics : List String
  output_filename : String
  gemini_api_key : String
  handwriting_id : JSNum
deriving DecidableEq, Repr

/-- Result of the local (pre-network) phase of `handleSubmit`: either an
early return with a validation error, or the request body handed to
`fetch`.  A network call is issued exactly in the `request` case. -/
inductive SubmitPrep where
  | invalid : String → SubmitPrep
  | request : RequestBody → SubmitPrep
deriving DecidableEq, Repr

/-- Error message of the empty-topics validation gate. -/
def topicsErrMsg : String := "At least one topic/question is required."

/-- Error message of the handwriting-range validation gate. -/
def hwErrMsg : String := "Handwriting ID must be between 1 and 6."

/-- Error message of the credential validation gate. -/
def apiKeyErrMsg : String :=
  "Gemini API key is required. Please enter your API key or configure it in environment variables."

/-- Generic failure message shown by the catch block of the latest
revision. -/
def genericErrMsg : String := "Failed to generate assignment. Please try again."

/-- `formData.topics.filter((topic) => topic.trim() !== "")`. -/
def validTopics (fd : FormData) : List String :=
  fd.topics.filter (fun topic => jsTrim topic != "")

/-- `const apiKey = formData.geminiApiKey.trim() ||
import.meta.env.VITE_GEMINI_API_KEY || ""`: the first truthy value of the
chain. -/
def resolveApiKey (envGeminiKey : String) (fd : FormData) : String :=
  if jsTrim fd.geminiApiKey ≠ "" then jsTrim fd.geminiApiKey
  else if envGeminiKey ≠ "" then envGeminiKey
  else ""

/-- The validation and request-building prefix of `handleSubmit`.
`envGeminiKey` stands for `import.meta.env.VITE_GEMINI_API_KEY || ""`
(an undefined build-time variable is the empty string). -/
def submitPrep (envGeminiKey : String) (fd : FormData) : SubmitPrep :=
  if (validTopics fd).length = 0 then SubmitPrep.invalid topicsErrMsg
  else if JSNum.lt fd.handwritingId (JSNum.int 1) || JSNum.lt (JSNum.int 6) fd.handwritingId then
    SubmitPrep.invalid hwErrMsg
  else
    if resolveApiKey envGeminiKey fd = "" then SubmitPrep.invalid apiKeyErrMsg
    else SubmitPrep.request
      { name := fd.name
        class_roll := fd.classRoll
        university_roll := fd.universityRoll
        subject_name := fd.subjectName
        subject_code := fd.subjectCode
        topics := validTopics fd
        output_filename :=
          if fd.outputFilename ≠ "" then fd.outputFilename
          else fd.universityRoll ++ "_" ++ removeWs fd.subjectCode
        gemini_api_key := resolveApiKey envGeminiKey fd
        handwriting_id := fd.handwritingId }

/-- A JSON response body, with each recognised field either absent
(`undefined`) or a string. -/
structure JsonResult where
  pdf_data : Option String
  pdf_url : Option String
  output_path : Option String
  image_url : Option String
  image_data : Option String
deriving DecidableEq, Repr

/-- Observable outcome of the `fetch` call, covering every path of the
try/catch in `handleSubmit`: the fetch itself throwing, a non-OK status, a
2xx binary PDF (content-type contains "application/pdf", object URL
created from the blob), a 2xx JSON body, or a 2xx body that fails JSON
parsing. -/
inductive FetchOutcome where
  | networkError : FetchOutcome
  | httpError : Nat → FetchOutcome
  | pdfBlob : String → FetchOutcome
  | jsonBody : JsonResult → FetchOutcome
  | jsonParseError : FetchOutcome
deriving DecidableEq, Repr

/-- The JSON branch of `handleSubmit` applied to a state in which the
result fields have already been cleared: the pdf-field precedence chain,
the image fallback, and the throw (caught as the generic error) when no
recognised field is present. -/
def handleJsonBody (st : AppState) (r : JsonResult) : AppState :=
  if truthy r.pdf_url || truthy r.pdf_data || truthy r.output_path then
    if truthy r.pdf_data then
      { st with
        generatedImageUrl := some ("data:application/pdf;base64," ++ r.pdf_data.getD "")
        isPdfContent := true }
    else if truthy r.pdf_url then
      { st with generatedImageUrl := some (r.pdf_url.getD ""), isPdfContent := true }
    else if truthy r.output_path then
      { st with generatedImageUrl := some (r.output_path.getD ""), isPdfContent := true }
    else
      { st with generatedImageUrl := none }
  else if truthy r.image_url || truthy r.image_data then
    { st with
      generatedImageUrl :=
        if truthy r.image_url then some (r.image_url.getD "")
        else if truthy r.image_data then
          some ("data:image/png;base64," ++ r.image_data.getD "")
        else none
      isPdfContent := false }
  else
    { st with error := some genericErrMsg }

/-- `handleSubmit` of the latest revision as a state transformer: clear the
result slots and raise `isGenerating`, run the validation gates, and when
they pass interpret the fetch outcome; the finally block lowers
`isGenerating` on every path. -/
def handleSubmit (envGeminiKey : String) (st : AppState) (outcome : FetchOutcome) : AppState :=
  let st1 : AppState :=
    { st with isGenerating := true, error := none, generatedImageUrl := none, isPdfContent := false }
  let st2 : AppState :=
    match submitPrep envGeminiKey st.formData with
    | SubmitPrep.invalid msg => { st1 with error := some msg }
    | SubmitPrep.request _ =>
      match outcome with
      | FetchOutcome.networkError => { st1 with error := some genericErrMsg }
      | FetchOutcome.httpError _ => { st1 with error := some genericErrMsg }
      | FetchOutcome.jsonParseError => { st1 with error := some genericErrMsg }
      | FetchOutcome.pdfBlob url =>
        { st1 with generatedImageUrl := some url, isPdfContent := true }
      | FetchOutcome.jsonBody r => handleJsonBody st1 r
  { st2 with isGenerating := false }

/-- Whether a submission attempt fails: a validation gate rejects, the
fetch throws, the status is non-OK, the body is not JSON, or a JSON body
carries none of the five recognised fields. -/
def isFailure (envGeminiKey : String) (fd : FormData) (outcome : FetchOutcome) : Bool :=
  match submitPrep envGeminiKey fd with
  | SubmitPrep.invalid _ => true
  | SubmitPrep.request _ =>
    match outcome with
    | FetchOutcome.networkError => true
    | FetchOutcome.httpError _ => true
    | FetchOutcome.jsonParseError => true
    | FetchOutcome.pdfBlob _ => false
    | FetchOutcome.jsonBody r =>
      !(truthy r.pdf_url || truthy r.pdf_data || truthy r.output_path ||
        truthy r.image_url || truthy r.image_data)

/-- The file-name computation of `downloadImage`: nothing to download
without a `generatedImageUrl`; otherwise the override plus extension, or
the default
`<name with whitespace runs as _>_<first topic with whitespace runs as _>_assignment.<ext>`.
JavaScript renders `topics[0]?.replace(...)` inside the template literal as
the string "undefined" when the topic list is empty. -/
def downloadFileName (st : AppState) : Option String :=
  match st.generatedImageUrl with
  | none => none
  | some _ =>
    let extension : String := if st.isPdfContent then "pdf" else "png"
    if st.formData.outputFilename ≠ "" then
      some (st.formData.outputFilename ++ "." ++ extension)
    else
      let firstTopic : String :=
        match st.formData.topics with
        | [] => "undefined"
        | t :: _ => replaceWsRuns t
      some (replaceWsRuns st.formData.name ++ "_" ++ firstTopic ++ "_assignment." ++ extension)

/-- One user action on the topic list. -/
inductive TopicOp where
  | add : TopicOp
  | remove : Nat → TopicOp
deriving DecidableEq, Repr

/-- Apply one topic-list action. -/
def applyTopicOp (fd : FormData) : TopicOp → FormData
  | TopicOp.add => addTopic fd
  | TopicOp.remove i => removeTopic fd i

/-- Apply a finite sequence of topic-list actions, left to right. -/
def applyTopicOps (fd : FormData) : List TopicOp → FormData
  | [] => fd
  | op :: ops => applyTopicOps (applyTopicOp fd op) ops

/-- A concrete filled-in form used by the witnesses: every gate passes. -/
def fdFilled : FormData :=
  { initialFormData with
    universityRoll := "21CS045"
    subjectCode := "CS 101"
    topics := ["Essay"]
    geminiApiKey := "k" }

/-- The request body `submitPrep "" fdFilled` produces. -/
def reqFilled : RequestBody :=
  { name := ""
    class_roll := ""
    university_roll := "21CS045"
    subject_name := ""
    subject_code := "CS 101"
    topics := ["Essay"]
    output_filename := "21CS045_CS101"
    gemini_api_key := "k"
    handwriting_id := JSNum.int 4 }

/-- App state holding the filled-in form. -/
def stFilled : AppState :=
  { initialState with formData := fdFilled }

/-- A JSON response carrying both a non-empty `pdf_data` and an
`image_url`. -/
def rPdfAndImage : JsonResult :=
  { pdf_data := some "QUJD"
    pdf_url := none
    output_path := none
    image_url := some "http://example.com/a.png"
    image_data := none }

/-- The filled-in form after typing "abc" into the handwriting selector
channel: `parseInt("abc")` stores `NaN`. -/
def fdNan : FormData :=
  handleInputChange fdFilled "handwritingId" "abc"

/-- The request body `submitPrep "" fdNan` produces: same as `reqFilled`
but with `handwriting_id = NaN`. -/
def reqNan : RequestBody :=
  { reqFilled with handwriting_id := JSNum.nan }

/-- App state after a successful PDF generation for the download-naming
witness: name "Jane Doe", first topic "Newton's Laws", no override. -/
def stJane : AppState :=
  { initialState with
    formData :=
      { initialFormData with name := "Jane Doe", topics := ["Newton\x27s Laws"] }
    generatedImageUrl := some "blob:result"
    isPdfContent := true }

/-- As `stJane` but with the explicit output-filename override
"essay1". -/
def stEssay : AppState :=
  { stJane with
    formData := { stJane.formData with outputFilename := "essay1" } }

/-- Filtering out index `i` from an enumeration that starts above `i`
keeps every entry. -/
theorem enumFrom_filter_ne_of_lt (l : List String) (n i : Nat) (h : i < n) :
    (l.enumFrom n).filter (fun p => p.1 != i) = l.enumFrom n := by
  induction l generalizing n with
  | nil => rfl
  | cons c cs ih =>
    have hne : ((n, c).1 != i) = true := by
      simp only [bne_iff_ne, ne_eq]
      omega
    simp only [List.enumFrom, List.filter_cons, hne, if_true]
    rw [ih (n + 1) (Nat.lt_succ_of_lt h)]

/-- Filtering one index out of an enumeration drops at most one entry. -/
theorem length_filter_enumFrom_ge (l : List String) (n i : Nat) :
    l.length - 1 ≤ ((l.enumFrom n).filter (fun p => p.1 != i)).length := by
  induction l generalizing n with
  | nil => simp
  | cons c cs ih =>
    by_cases h : n = i
    · subst h
      have hkeep := enumFrom_filter_ne_of_lt cs (n + 1) n (Nat.lt_succ_self n)
      have hself : ((n, c).1 != n) = false := by simp
      simp only [List.enumFrom, List.filter_cons, hself, Bool.false_eq_true, if_false,
        hkeep, List.enumFrom_length, List.length_cons]
      omega
    · have hne : ((n, c).1 != i) = true := by
        simp only [bne_iff_ne, ne_eq]
        exact h
      simp only [List.enumFrom, List.filter_cons, hne, if_true, List.length_cons]
      have := ih (n + 1)
      omega

/-- `removeTopic` never empties the topic list. -/
theorem one_le_length_removeTopic (fd : FormData) (i : Nat)
    (h : 1 ≤ fd.topics.length) : 1 ≤ (removeTopic fd i).topics.length := by
  unfold removeTopic
  split
  · next hgt =>
    simp only [List.length_map]
    have hge := length_filter_enumFrom_ge fd.topics 0 i
    have henum : fd.topics.enum = fd.topics.enumFrom 0 := rfl
    rw [henum]
    omega
  · exact h

/-- Every validation failure of `submitPrep` carries one of the three
fixed messages. -/
theorem submitPrep_invalid_msg (envGeminiKey : String) (fd : FormData) (msg : String)
    (h : submitPrep envGeminiKey fd = SubmitPrep.invalid msg) :
    msg = topicsErrMsg ∨ msg = hwErrMsg ∨ msg = apiKeyErrMsg := by
  unfold submitPrep at h
  split at h
  · exact Or.inl (SubmitPrep.invalid.inj h).symm
  · split at h
    · exact Or.inr (Or.inl (SubmitPrep.invalid.inj h).symm)
    · split at h
      · exact Or.inr (Or.inr (SubmitPrep.invalid.inj h).symm)
      · exact absurd h (by simp)

/-- The three validation messages are non-empty and pairwise distinct. -/
theorem errMsgs_distinct :
    topicsErrMsg ≠ "" ∧ hwErrMsg ≠ "" ∧ apiKeyErrMsg ≠ "" ∧ genericErrMsg ≠ "" ∧
    topicsErrMsg ≠ hwErrMsg ∧ topicsErrMsg ≠ apiKeyErrMsg ∧ hwErrMsg ≠ apiKeyErrMsg := by
  refine ⟨?_, ?_, ?_, ?_, ?_, ?_, ?_⟩ <;> decide

/-- Claim C1 (counterexample): on the fresh-start state, `resetForm` does
not reproduce the fresh-start default state — the initial `handwritingId`
is 4 but `resetForm` hard-codes 1, and `geminiApiKey` is set to the empty
string rather than being re-seeded from the build-time configuration. -/
theorem reset_differs_from_fresh_default :
    resetForm initialState ≠ initialState ∧
    (resetForm initialState).formData.handwritingId = JSNum.int 1 ∧
    initialState.formData.handwritingId = JSNum.int 4 ∧
    (resetForm initialState).formData.geminiApiKey = "" := by
  refine ⟨?_, rfl, rfl, rfl⟩
  decide

/-- Claim C1 (amended): for every state, `resetForm` replaces the form by
the fixed record with all text fields empty, `topics = [""]`,
`handwritingId = 1`, `geminiApiKey = ""` and `outputFilename = ""` — i.e.
the fresh-start record except that `handwritingId` is 1 instead of 4 —
and clears `generatedUrl`, `error` and `isPdfContent`; `geminiApiKey` is
not re-seeded from the build-time configuration. -/
theorem resetForm_state (st : AppState) :
    (resetForm st).formData = resetFormDefaults ∧
    resetFormDefaults = { initialFormData with handwritingId := JSNum.int 1 } ∧
    (resetForm st).generatedImageUrl = none ∧
    (resetForm st).error = none ∧
    (resetForm st).isPdfContent = false :=
  ⟨rfl, by decide, rfl, rfl, rfl⟩

/-- Claim C4: starting from any state whose topic list is non-empty, any
finite sequence of `addTopic`/`removeTopic` actions leaves the topic list
non-empty, and `removeTopic` on a singleton list is a no-op on the whole
form state. -/
theorem topics_length_invariant (fd : FormData) (ops : List TopicOp)
    (h : 1 ≤ fd.topics.length) :
    1 ≤ (applyTopicOps fd ops).topics.length ∧
    (∀ i, fd.topics.length = 1 → removeTopic fd i = fd) := by
  constructor
  · induction ops generalizing fd with
    | nil => exact h
    | cons op ops ih =>
      cases op with
      | add =>
        refine ih (applyTopicOp fd TopicOp.add) ?_
        simp only [applyTopicOp, addTopic, List.length_append, List.length_cons,
          List.length_nil]
        omega
      | remove i => exact ih _ (one_le_length_removeTopic fd i h)
  · intro i h1
    unfold removeTopic
    rw [if_neg]
    omega

/-- Witness for C4 at a concrete input: the fresh form (one topic), a
concrete action sequence, and the singleton no-op. -/
theorem topics_length_invariant_witness :
    1 ≤ initialFormData.topics.length ∧
    1 ≤ (applyTopicOps initialFormData
          [TopicOp.add, TopicOp.remove 0, TopicOp.remove 0, TopicOp.remove 5]).topics.length ∧
    removeTopic initialFormData 0 = initialFormData :=
  ⟨by decide,
   (topics_length_invariant initialFormData
      [TopicOp.add, TopicOp.remove 0, TopicOp.remove 0, TopicOp.remove 5] (by decide)).1,
   (topics_length_invariant initialFormData [] (by decide)).2 0 (by decide)⟩

/-- Claim C5: when every topic entry is blank (whitespace-only), the
submission stops at the first validation gate with exactly the
empty-topics message — no request body is built, hence no network call —
and ends not generating. -/
theorem empty_topics_gate (envGeminiKey : String) (st : AppState) (o : FetchOutcome)
    (h : ∀ t ∈ st.formData.topics, jsTrim t = "") :
    submitPrep envGeminiKey st.formData = SubmitPrep.invalid topicsErrMsg ∧
    (handleSubmit envGeminiKey st o).error = some topicsErrMsg ∧
    (handleSubmit envGeminiKey st o).isGenerating = false ∧
    (handleSubmit envGeminiKey st o).generatedImageUrl = none := by
  have hvt : validTopics st.formData = [] := by
    unfold validTopics
    rw [List.filter_eq_nil_iff]
    intro a ha
    simp [h a ha]
  have hp : submitPrep envGeminiKey st.formData = SubmitPrep.invalid topicsErrMsg := by
    unfold submitPrep
    rw [hvt]
    simp
  exact ⟨hp, by simp [handleSubmit, hp], by simp [handleSubmit, hp],
    by simp [handleSubmit, hp]⟩

/-- Witness for C5: the fresh form has `topics = [""]`, which is blank. -/
theorem empty_topics_gate_witness :
    submitPrep "" initialState.formData = SubmitPrep.invalid topicsErrMsg ∧
    (handleSubmit "" initialState FetchOutcome.networkError).error = some topicsErrMsg ∧
    (handleSubmit "" initialState FetchOutcome.networkError).isGenerating = false :=
  ⟨(empty_topics_gate "" initialState FetchOutcome.networkError (by decide)).1,
   (empty_topics_gate "" initialState FetchOutcome.networkError (by decide)).2.1,
   (empty_topics_gate "" initialState FetchOutcome.networkError (by decide)).2.2.1⟩

/-- A non-blank member of the topic list makes `validTopics` non-empty. -/
theorem validTopics_ne_nil (fd : FormData) (h : ∃ t ∈ fd.topics, jsTrim t ≠ "") :
    (validTopics fd).length ≠ 0 := by
  obtain ⟨t, ht, htr⟩ := h
  have hmem : t ∈ validTopics fd := by
    unfold validTopics
    exact List.mem_filter.mpr ⟨ht, by simp [htr]⟩
  intro h0
  rw [List.length_eq_zero] at h0
  rw [h0] at hmem
  simp at hmem

/-- Claim C6: with at least one non-blank topic, `handwritingId` 0 or 7
stops the submission at the range gate with exactly the range message and
no request is built; every integer 1..6 passes the gate (the range error
is never produced). -/
theorem handwriting_range_gate (envGeminiKey : String) (st : AppState) (o : FetchOutcome)
    (h : ∃ t ∈ st.formData.topics, jsTrim t ≠ "") :
    ((st.formData.handwritingId = JSNum.int 0 ∨ st.formData.handwritingId = JSNum.int 7) →
      submitPrep envGeminiKey st.formData = SubmitPrep.invalid hwErrMsg ∧
      (handleSubmit envGeminiKey st o).error = some hwErrMsg ∧
      (handleSubmit envGeminiKey st o).isGenerating = false) ∧
    (∀ n : Int, 1 ≤ n → n ≤ 6 →
      submitPrep envGeminiKey { st.formData with handwritingId := JSNum.int n } ≠
        SubmitPrep.invalid hwErrMsg) := by
  have hlen := validTopics_ne_nil st.formData h
  constructor
  · intro hid
    have hp : submitPrep envGeminiKey st.formData = SubmitPrep.invalid hwErrMsg := by
      unfold submitPrep
      rw [if_neg hlen]
      rcases hid with hid | hid <;> rw [hid] <;> simp [JSNum.lt]
    exact ⟨hp, by simp [handleSubmit, hp], by simp [handleSubmit, hp]⟩
  · intro n h1 h6
    have hlen2 : (validTopics { st.formData with handwritingId := JSNum.int n }).length ≠ 0 := by
      have : validTopics { st.formData with handwritingId := JSNum.int n } =
          validTopics st.formData := by
        unfold validTopics
        rfl
      rw [this]
      exact hlen
    unfold submitPrep
    rw [if_neg hlen2]
    have hlt : (JSNum.lt (JSNum.int n) (JSNum.int 1) ||
        JSNum.lt (JSNum.int 6) (JSNum.int n)) = false := by
      simp only [JSNum.lt, Bool.or_eq_false_iff, decide_eq_false_iff_not]
      omega
    simp only [hlt, Bool.false_eq_true, if_false]
    split
    · intro hc
      have := (SubmitPrep.invalid.inj hc)
      exact absurd this (by decide)
    · simp

/-- Witness for C6: concrete non-blank topic, `handwritingId = 7` is
rejected with the range message and `handwritingId = 4` is not. -/
theorem handwriting_range_gate_witness :
    submitPrep "" { fdFilled with handwritingId := JSNum.int 7 } =
      SubmitPrep.invalid hwErrMsg ∧
    submitPrep "" { fdFilled with handwritingId := JSNum.int 4 } ≠
      SubmitPrep.invalid hwErrMsg :=
  ⟨((handwriting_range_gate ""
      { formData := { fdFilled with handwritingId := JSNum.int 7 }
        isGenerating := false
        generatedImageUrl := none
        error := none
        isPdfContent := false
        showApiKey := false }
      FetchOutcome.networkError
      ⟨"Essay", by decide, by decide⟩).1 (Or.inr rfl)).1,
   (handwriting_range_gate "" stFilled FetchOutcome.networkError
      ⟨"Essay", by decide, by decide⟩).2 4 (by decide) (by decide)⟩

/-- Claim C7 (latest revision): on a form passing the topics and range
gates, submission fails at the credential gate exactly when the trimmed
user key and the build-time default are both blank; when either is
non-blank a request is built (the network call proceeds) whose credential
is the trimmed user key when non-blank, else the build-time default. -/
theorem credential_gate (envGeminiKey : String) (st : AppState) (o : FetchOutcome)
    (h1 : ∃ t ∈ st.formData.topics, jsTrim t ≠ "")
    (h2 : (JSNum.lt st.formData.handwritingId (JSNum.int 1) ||
           JSNum.lt (JSNum.int 6) st.formData.handwritingId) = false) :
    (jsTrim st.formData.geminiApiKey = "" ∧ envGeminiKey = "" →
      submitPrep envGeminiKey st.formData = SubmitPrep.invalid apiKeyErrMsg ∧
      (handleSubmit envGeminiKey st o).error = some apiKeyErrMsg ∧
      (handleSubmit envGeminiKey st o).isGenerating = false) ∧
    ((jsTrim st.formData.geminiApiKey ≠ "" ∨ envGeminiKey ≠ "") →
      ∃ b, submitPrep envGeminiKey st.formData = SubmitPrep.request b ∧
        b.gemini_api_key =
          (if jsTrim st.formData.geminiApiKey ≠ "" then jsTrim st.formData.geminiApiKey
           else envGeminiKey)) := by
  have hlen := validTopics_ne_nil st.formData h1
  constructor
  · intro ⟨hu, he⟩
    have hkey : resolveApiKey envGeminiKey st.formData = "" := by
      unfold resolveApiKey
      rw [hu, he]
      simp
    have hp : submitPrep envGeminiKey st.formData = SubmitPrep.invalid apiKeyErrMsg := by
      unfold submitPrep
      rw [if_neg hlen]
      simp only [h2, Bool.false_eq_true, if_false]
      rw [if_pos hkey]
    exact ⟨hp, by simp [handleSubmit, hp], by simp [handleSubmit, hp]⟩
  · intro hne
    have hkey : resolveApiKey envGeminiKey st.formData =
        (if jsTrim st.formData.geminiApiKey ≠ "" then jsTrim st.formData.geminiApiKey
         else envGeminiKey) := by
      unfold resolveApiKey
      by_cases hu : jsTrim st.formData.geminiApiKey = ""
      · rcases hne with hne | hne
        · exact absurd hu hne
        · simp [hu, hne]
      · simp [hu]
    have hkne : resolveApiKey envGeminiKey st.formData ≠ "" := by
      rw [hkey]
      by_cases hu : jsTrim st.formData.geminiApiKey = ""
      · rcases hne with hne | hne
        · exact absurd hu hne
        · simp [hu]
          exact hne
      · simp [hu]
    have hp : submitPrep envGeminiKey st.formData = SubmitPrep.request
        { name := st.formData.name
          class_roll := st.formData.classRoll
          university_roll := st.formData.universityRoll
          subject_name := st.formData.subjectName
          subject_code := st.formData.subjectCode
          topics := validTopics st.formData
          output_filename :=
            if st.formData.outputFilename ≠ "" then st.formData.outputFilename
            else st.formData.universityRoll ++ "_" ++ removeWs st.formData.subjectCode
          gemini_api_key := resolveApiKey envGeminiKey st.formData
          handwriting_id := st.formData.handwritingId } := by
      unfold submitPrep
      rw [if_neg hlen]
      simp only [h2, Bool.false_eq_true, if_false]
      rw [if_neg hkne]
    exact ⟨_, hp, hkey⟩

/-- Witness for C7: with a blank user key and blank build-time default the
credential error is produced; with user key " k " (trimmed to "k") and a
non-blank build-time default "envkey", the request proceeds and carries
the trimmed user key. -/
theorem credential_gate_witness :
    submitPrep "" { fdFilled with geminiApiKey := " " } =
      SubmitPrep.invalid apiKeyErrMsg ∧
    (∃ b, submitPrep "envkey" { fdFilled with geminiApiKey := " k " } =
      SubmitPrep.request b ∧ b.gemini_api_key = "k") := by
  constructor
  · exact ((credential_gate ""
      { formData := { fdFilled with geminiApiKey := " " }
        isGenerating := false
        generatedImageUrl := none
        error := none
        isPdfContent := false
        showApiKey := false }
      FetchOutcome.networkError
      ⟨"Essay", by decide, by decide⟩ (by decide)).1 ⟨by decide, rfl⟩).1
  · obtain ⟨b, hb, hkey⟩ := (credential_gate "envkey"
      { formData := { fdFilled with geminiApiKey := " k " }
        isGenerating := false
        generatedImageUrl := none
        error := none
        isPdfContent := false
        showApiKey := false }
      FetchOutcome.networkError
      ⟨"Essay", by decide, by decide⟩ (by decide)).2 (Or.inl (by decide))
    refine ⟨b, hb, ?_⟩
    rw [hkey]
    decide

/-- Claim C2: a 2xx JSON response with a non-empty `pdf_data` and an
`image_url` ends the submission with `isPdfContent = true` and
`generatedUrl` equal to `"data:application/pdf;base64," ++ pdf_data`, and
the value of `image_url` has no effect on the final state. -/
theorem jsonResponse_pdfData_precedence (envGeminiKey : String) (st : AppState)
    (r : JsonResult) (b : RequestBody) (d u : String)
    (hreq : submitPrep envGeminiKey st.formData = SubmitPrep.request b)
    (hd : r.pdf_data = some d) (hdne : d ≠ "") (_hu : r.image_url = some u) :
    (handleSubmit envGeminiKey st (FetchOutcome.jsonBody r)).isPdfContent = true ∧
    (handleSubmit envGeminiKey st (FetchOutcome.jsonBody r)).generatedImageUrl =
      some ("data:application/pdf;base64," ++ d) ∧
    (∀ v : Option String,
      handleSubmit envGeminiKey st (FetchOutcome.jsonBody { r with image_url := v }) =
        handleSubmit envGeminiKey st (FetchOutcome.jsonBody r)) := by
  have htr : truthy r.pdf_data = true := by
    rw [hd]
    simp [truthy, hdne]
  refine ⟨?_, ?_, ?_⟩
  · simp [handleSubmit, hreq, handleJsonBody, htr]
  · simp [handleSubmit, hreq, handleJsonBody, hd, truthy, hdne]
  · intro v
    simp [handleSubmit, hreq, handleJsonBody, htr]

/-- Witness for C2: the filled-in form with a response carrying
`pdf_data = "QUJD"` and an `image_url`. -/
theorem jsonResponse_pdfData_precedence_witness :
    (handleSubmit "" stFilled (FetchOutcome.jsonBody rPdfAndImage)).isPdfContent = true ∧
    (handleSubmit "" stFilled (FetchOutcome.jsonBody rPdfAndImage)).generatedImageUrl =
      some "data:application/pdf;base64,QUJD" ∧
    handleSubmit "" stFilled
        (FetchOutcome.jsonBody { rPdfAndImage with image_url := some "http://other" }) =
      handleSubmit "" stFilled (FetchOutcome.jsonBody rPdfAndImage) := by
  have h := jsonResponse_pdfData_precedence "" stFilled rPdfAndImage reqFilled "QUJD"
    "http://example.com/a.png" (by decide) rfl (by decide) rfl
  exact ⟨h.1, h.2.1, h.2.2 (some "http://other")⟩

/-- Claim C3: every failing submission (validation failure, thrown fetch,
non-2xx status, non-JSON body, or a JSON body with none of the five
recognised fields) ends with `isGenerating = false`, no `generatedUrl`, a
non-empty error message, and the form data untouched. -/
theorem failed_submission_state (envGeminiKey : String) (st : AppState) (o : FetchOutcome)
    (h : isFailure envGeminiKey st.formData o = true) :
    (handleSubmit envGeminiKey st o).isGenerating = false ∧
    (handleSubmit envGeminiKey st o).generatedImageUrl = none ∧
    (∃ msg, (handleSubmit envGeminiKey st o).error = some msg ∧ msg ≠ "") ∧
    (handleSubmit envGeminiKey st o).formData = st.formData := by
  unfold isFailure at h
  cases hp : submitPrep envGeminiKey st.formData with
  | invalid msg =>
    have hmsg : msg ≠ "" := by
      rcases submitPrep_invalid_msg envGeminiKey st.formData msg hp with h1 | h1 | h1 <;>
        rw [h1] <;> decide
    exact ⟨by simp [handleSubmit, hp], by simp [handleSubmit, hp],
      ⟨msg, by simp [handleSubmit, hp], hmsg⟩, by simp [handleSubmit, hp]⟩
  | request b =>
    rw [hp] at h
    cases o with
    | networkError =>
      exact ⟨by simp [handleSubmit, hp], by simp [handleSubmit, hp],
        ⟨genericErrMsg, by simp [handleSubmit, hp], by decide⟩, by simp [handleSubmit, hp]⟩
    | httpError s =>
      exact ⟨by simp [handleSubmit, hp], by simp [handleSubmit, hp],
        ⟨genericErrMsg, by simp [handleSubmit, hp], by decide⟩, by simp [handleSubmit, hp]⟩
    | jsonParseError =>
      exact ⟨by simp [handleSubmit, hp], by simp [handleSubmit, hp],
        ⟨genericErrMsg, by simp [handleSubmit, hp], by decide⟩, by simp [handleSubmit, hp]⟩
    | pdfBlob url => simp at h
    | jsonBody r =>
      simp only [Bool.not_eq_true', Bool.or_eq_false_iff] at h
      obtain ⟨⟨⟨⟨hpu, hpd⟩, hop⟩, hiu⟩, hid⟩ := h
      refine ⟨?_, ?_, ⟨genericErrMsg, ?_, by decide⟩, ?_⟩ <;>
        simp [handleSubmit, hp, handleJsonBody, hpu, hpd, hop, hiu, hid]

/-- Witness for C3: the filled-in form against an HTTP 500 response. -/
theorem failed_submission_state_witness :
    (handleSubmit "" stFilled (FetchOutcome.httpError 500)).isGenerating = false ∧
    (handleSubmit "" stFilled (FetchOutcome.httpError 500)).generatedImageUrl = none ∧
    (∃ msg, (handleSubmit "" stFilled (FetchOutcome.httpError 500)).error = some msg ∧
      msg ≠ "") ∧
    (handleSubmit "" stFilled (FetchOutcome.httpError 500)).formData = stFilled.formData :=
  failed_submission_state "" stFilled (FetchOutcome.httpError 500) (by decide)

/-- Claim C8: with no output-filename override, the request's
`output_filename` is the university roll, an underscore, then the subject
code with all whitespace removed. -/
theorem default_output_filename (envGeminiKey : String) (fd : FormData) (b : RequestBody)
    (h0 : fd.outputFilename = "")
    (h : submitPrep envGeminiKey fd = SubmitPrep.request b) :
    b.output_filename = fd.universityRoll ++ "_" ++ removeWs fd.subjectCode := by
  unfold submitPrep at h
  split at h
  · exact absurd h (by simp)
  · split at h
    · exact absurd h (by simp)
    · split at h
      · exact absurd h (by simp)
      · have hb := (SubmitPrep.request.inj h).symm
        rw [hb]
        simp [h0]

/-- Witness for C8: `universityRoll = "21CS045"`, `subjectCode = "CS 101"`
yield `output_filename = "21CS045_CS101"`. -/
theorem default_output_filename_witness :
    fdFilled.outputFilename = "" ∧
    submitPrep "" fdFilled = SubmitPrep.request reqFilled ∧
    reqFilled.output_filename = fdFilled.universityRoll ++ "_" ++ removeWs fdFilled.subjectCode ∧
    reqFilled.output_filename = "21CS045_CS101" :=
  ⟨rfl, by decide, default_output_filename "" fdFilled reqFilled rfl (by decide), rfl⟩

/-- Claim C9: with a `generatedUrl` present and a non-empty topic list,
the download file name is the override plus "." plus the extension
("pdf" when `isPdfContent`, else "png") when the override is non-empty,
and otherwise the name and the first topic (each with whitespace runs
replaced by underscores) joined by "_" with the suffix "_assignment." and
the extension. -/
theorem download_file_name_spec (st : AppState) (u t : String) (rest : List String)
    (hu : st.generatedImageUrl = some u) (ht : st.formData.topics = t :: rest) :
    downloadFileName st = some (
      if st.formData.outputFilename ≠ "" then
        st.formData.outputFilename ++ "." ++ (if st.isPdfContent then "pdf" else "png")
      else
        replaceWsRuns st.formData.name ++ "_" ++ replaceWsRuns t ++ "_assignment." ++
          (if st.isPdfContent then "pdf" else "png")) := by
  unfold downloadFileName
  rw [hu]
  simp only [ht]
  split <;> rfl

/-- Witness for C9: name "Jane Doe" and first topic "Newton's Laws" with a
PDF result give "Jane_Doe_Newton's_Laws_assignment.pdf"; the override
"essay1" gives "essay1.pdf". -/
theorem download_file_name_spec_witness :
    downloadFileName stJane = some "Jane_Doe_Newton\x27s_Laws_assignment.pdf" ∧
    downloadFileName stEssay = some "essay1.pdf" := by
  constructor
  · rw [download_file_name_spec stJane "blob:result" "Newton\x27s Laws" [] rfl rfl]
    decide
  · rw [download_file_name_spec stEssay "blob:result" "Newton\x27s Laws" [] rfl rfl]
    decide

/-- Claim C10: typing a non-numeric string into the handwriting selector
channel stores `parseInt`'s `NaN`, which is not an integer in 1..6, yet
the range check `handwritingId < 1 || handwritingId > 6` is false for
`NaN`, so the submission proceeds to the network call with a non-integer
`handwriting_id`. -/
theorem nan_handwriting_bypasses_gate :
    fdNan.handwritingId = JSNum.nan ∧
    (∀ n : Int, fdNan.handwritingId ≠ JSNum.int n) ∧
    (JSNum.lt fdNan.handwritingId (JSNum.int 1) ||
      JSNum.lt (JSNum.int 6) fdNan.handwritingId) = false ∧
    submitPrep "" fdNan = SubmitPrep.request reqNan ∧
    reqNan.handwriting_id = JSNum.nan := by
  refine ⟨by decide, ?_, by decide, by decide, rfl⟩
  intro n h
  have : fdNan.handwritingId = JSNum.nan := by decide
  rw [this] at h
  exact JSNum.noConfusion h
